import Mathlib

/-!
Verification development for a natural-language-to-SQL request pipeline
(`utils.py` + `main.py`): a read-only safety gate, a SQL executor, a textual
existence prober (`quick_check_sql`), a two-round tool-calling existence
oracle (`check_data_existence`), a session store, and the HTTP handlers
(`process_query`, `check_and_execute`).

The embedding is shallow: the SQLite store and the language-model provider
are oracles (`Store`, `LLM`); Python exceptions are the inductive `PyExc`;
side effects on the data store and on the provider are recorded in a trace
of `Eff` values.  Python string/`re` operations are re-implemented over
`List Char` (ASCII semantics, matching the ASCII inputs the code handles).
-/

/-- Python exceptions that the modelled code can raise or catch.
`valueError` models `ValueError`; `operationalError` models
`sqlite3.OperationalError`; `databaseError` models any other
`sqlite3.Error`; `typeError` and `indexError` model the built-ins. -/
inductive PyExc where
  | valueError (msg : String)
  | operationalError (msg : String)
  | databaseError (msg : String)
  | typeError (msg : String)
  | indexError (msg : String)
deriving DecidableEq

instance {ε α : Type} [DecidableEq ε] [DecidableEq α] :
    DecidableEq (Except ε α) := fun a b =>
  match a, b with
  | Except.ok x, Except.ok y =>
    if h : x = y then isTrue (by rw [h]) else isFalse (by simp [h])
  | Except.error x, Except.error y =>
    if h : x = y then isTrue (by rw [h]) else isFalse (by simp [h])
  | Except.ok _, Except.error _ => isFalse (by simp)
  | Except.error _, Except.ok _ => isFalse (by simp)

/-- A cell value returned by the SQLite store. -/
inductive Cell where
  | int (n : Int)
  | text (s : String)
  | null
deriving DecidableEq

/-- A row materialized as a column-name/value mapping
(`dict(zip(columns, row))` modelled as an association list). -/
abbrev RowDict : Type := List (String × Cell)

/-- The SQLite store as an oracle: executing a statement either yields
column names plus rows, or raises an exception (engine errors are
`operationalError`/`databaseError`). -/
structure Store where
  run : String → Except PyExc (List String × List (List Cell))

/-- Observable side effects: opening a connection to a database file,
executing a statement on it, closing the connection, and one
chat-completions call to the model provider. -/
inductive Eff where
  | connect (db : String)
  | executeStmt (q : String)
  | close
  | llmCall
deriving DecidableEq

/-- Python whitespace (the ASCII characters stripped by `str.strip()` and
matched by `\s`). -/
def isPySpace (c : Char) : Bool :=
  c == ' ' || c == '\t' || c == '\n' || c == '\r' || c == '\x0b' || c == '\x0c'

/-- Python `str.strip()`: drop leading and trailing whitespace. -/
def pyStrip (s : String) : String :=
  String.mk (((s.toList.dropWhile isPySpace).reverse.dropWhile isPySpace).reverse)

/-- Python `str.lower()` (ASCII case folding). -/
def pyLower (s : String) : String :=
  String.mk (s.toList.map Char.toLower)

/-- Python `str.startswith(pre)` on the underlying character lists. -/
def listStartsWith : List Char → List Char → Bool
  | _, [] => true
  | [], _ :: _ => false
  | c :: cs, p :: ps => c == p && listStartsWith cs ps

/-- Python `s.startswith(pre)`. -/
def pyStartsWith (s pre : String) : Bool :=
  listStartsWith s.toList pre.toList

/-- The Safety Gate, from `execute_sql_query` lines 112-113:
`sql.strip().lower()` starts with `select`, `with` or `explain`. -/
def is_read_only (sql : String) : Bool :=
  let sql_lower := pyLower (pyStrip sql)
  pyStartsWith sql_lower "select" || pyStartsWith sql_lower "with" ||
    pyStartsWith sql_lower "explain"

/-- The message of the policy `ValueError` raised by the gate. -/
def policyMsg : String := "Only read-only queries are allowed."

/-- The business-data database file. -/
def dataDb : String := "data.db"

/-- Function `execute_sql_query(sql)` (utils.py lines 96-129): reject non-read-only
SQL with the policy `ValueError` before any I/O; otherwise connect, execute,
zip each row with the column names, and close the connection on every exit
path (the `finally` block). -/
def execute_sql_query (store : Store) (sql : String) :
    Except PyExc (List RowDict) × List Eff :=
  if !(is_read_only sql) then
    (Except.error (PyExc.valueError policyMsg), [])
  else
    match store.run sql with
    | Except.ok (cols, rows) =>
        (Except.ok (rows.map fun r => cols.zip r),
         [Eff.connect dataDb, Eff.executeStmt sql, Eff.close])
    | Except.error e =>
        (Except.error e, [Eff.connect dataDb, Eff.executeStmt sql, Eff.close])

/-- A store that answers every statement with an empty result. -/
def stubStore : Store := ⟨fun _ => Except.ok ([], [])⟩

/-- Drop a case-insensitive literal pattern from the front of a character
list, returning the remainder on success (ASCII case folding, as in
`re.IGNORECASE`). -/
def dropPrefixCI : List Char → List Char → Option (List Char)
  | [], s => some s
  | _ :: _, [] => none
  | p :: ps, c :: cs =>
    if Char.toLower c == Char.toLower p then dropPrefixCI ps cs else none

/-- One left-to-right pass of
`re.sub(r"ORDER BY .*", "", s, flags=re.IGNORECASE)`: at each position, a
match is the literal `ORDER BY ` (case-insensitive) followed by the maximal
run of non-newline characters (`.` does not match `\n`); each match is
replaced by the empty string and scanning resumes after it.  The `Nat`
argument is fuel; the wrapper passes the list length, which the scan never
exhausts since every step consumes at least one character. -/
def orderBySubGo : Nat → List Char → List Char
  | 0, _ => []
  | _ + 1, [] => []
  | fuel + 1, c :: cs =>
    match dropPrefixCI ("order by ".toList) (c :: cs) with
    | some rest => orderBySubGo fuel (rest.dropWhile fun ch => !(ch == '\n'))
    | none => c :: orderBySubGo fuel cs

/-- Python `re.sub(r"ORDER BY .*", "", sql_query, flags=re.IGNORECASE)`
(utils.py line 223). -/
def orderBySub (s : String) : String :=
  String.mk (orderBySubGo s.toList.length s.toList)

/-- A regex word character (`\w`, ASCII). -/
def isWordChar (c : Char) : Bool :=
  c.isAlphanum || c == '_'

/-- Attempt `\bFROM\b\s+(.*)` at the head of the list (the leading word
boundary is checked by the caller): the literal `from` (case-insensitive),
whose trailing word boundary together with `\s+` requires the next character
to be whitespace; `\s+` greedily eats the whitespace run and `(.*)` captures
up to the next newline or the end.  Returns the captured group. -/
def fromTailAt (l : List Char) : Option (List Char) :=
  match dropPrefixCI ("from".toList) l with
  | none => none
  | some rest =>
    match rest with
    | [] => none
    | c :: _ =>
      if isPySpace c then
        some ((rest.dropWhile isPySpace).takeWhile fun ch => !(ch == '\n'))
      else none

/-- Left-to-right scan for the leftmost match of `\bFROM\b\s+(.*)`; the
`Bool` records whether the previous character was a word character (for
`\b`). -/
def fromSearchGo : Bool → List Char → Option (List Char)
  | _, [] => none
  | prevWord, c :: cs =>
    if !prevWord then
      match fromTailAt (c :: cs) with
      | some t => some t
      | none => fromSearchGo (isWordChar c) cs
    else fromSearchGo (isWordChar c) cs

/-- Python `re.search(r"\bFROM\b\s+(.*)", s, re.IGNORECASE)`, returning `group(1)`
(utils.py line 226). -/
def fromSearch (l : List Char) : Option (List Char) :=
  fromSearchGo false l

/-- The textual rewrite of `quick_check_sql` (utils.py lines 222-233):
strip `ORDER BY …`, search for `FROM`, and build
`SELECT EXISTS (SELECT 1 FROM <after_from>)`; `none` when no `FROM` is
found. -/
def existsQuery (sql_query : String) : Option String :=
  match fromSearch (orderBySub sql_query).toList with
  | none => none
  | some after_from =>
      some ("SELECT EXISTS (SELECT 1 FROM " ++ String.mk after_from ++ ")")

/-- Python `bool()` of a fetched cell. -/
def pyBool : Cell → Bool
  | Cell.int n => !(n == 0)
  | Cell.text s => !(s == "")
  | Cell.null => false

/-- Function `quick_check_sql(sql_query, db_path)` (utils.py lines 206-244):
rewrite the query; if no `FROM` is found return `False` with no I/O;
otherwise connect and execute the existence probe.  `exists =
cursor.fetchone()[0]` subscripts the first fetched row, so an empty result
raises `TypeError` and an empty row raises `IndexError`; the surrounding
`try` catches **only** `ValueError`, turning it into `False` — every other
exception raised by execution propagates.  The `with` block does not close
the connection, so no `close` effect is recorded. -/
def quick_check_sql (store : Store) (sql_query : String) (db_path : String) :
    Except PyExc Bool × List Eff :=
  match existsQuery sql_query with
  | none => (Except.ok false, [])
  | some exists_query =>
    match store.run exists_query with
    | Except.ok (_, rows) =>
      match rows with
      | [] =>
          (Except.error (PyExc.typeError "NoneType object is not subscriptable"),
           [Eff.connect db_path, Eff.executeStmt exists_query])
      | row :: _ =>
        match row with
        | [] =>
            (Except.error (PyExc.indexError "tuple index out of range"),
             [Eff.connect db_path, Eff.executeStmt exists_query])
        | cell :: _ =>
            (Except.ok (pyBool cell),
             [Eff.connect db_path, Eff.executeStmt exists_query])
    | Except.error (PyExc.valueError _) =>
        (Except.ok false, [Eff.connect db_path, Eff.executeStmt exists_query])
    | Except.error e =>
        (Except.error e, [Eff.connect db_path, Eff.executeStmt exists_query])

example : existsQuery "SELECT * FROM Products ORDER BY Name" =
    some "SELECT EXISTS (SELECT 1 FROM Products )" := by decide

example : existsQuery "SELECT * FROM Products\nWHERE 0 = 1" =
    some "SELECT EXISTS (SELECT 1 FROM Products)" := by decide

example : existsQuery "SELECT * FROM" = none := by decide

example : existsQuery "SELECT 1" = none := by decide

/-- One row of the `sessions` table (utils.py lines 136-143); the
autoincrement `id` order is the list order of `SessionDB`. -/
structure SessionRow where
  session_id : String
  user_request : String
  ai_response : String
deriving DecidableEq

/-- The `sessions.db` table in insertion (`id`) order. -/
abbrev SessionDB : Type := List SessionRow

/-- Function `save_to_session(session_id, user_request, ai_response)` (utils.py
lines 148-173): one `INSERT`, i.e. append a row at the end. -/
def save_to_session (db : SessionDB)
    (session_id user_request ai_response : String) : SessionDB :=
  db ++ [⟨session_id, user_request, ai_response⟩]

/-- One entry of the conversation history: the dict
`{"user": user_request, "ai": ai_response}`. -/
structure HistEntry where
  user : String
  ai : String
deriving DecidableEq

/-- Function `get_session_history(session_id)` (utils.py lines 176-204):
`SELECT user_request, ai_response FROM sessions WHERE session_id = ?
ORDER BY id ASC`, then build the `{user, ai}` dicts. -/
def get_session_history (db : SessionDB) (session_id : String) :
    List HistEntry :=
  (db.filter fun r => r.session_id == session_id).map
    fun r => ⟨r.user_request, r.ai_response⟩

/-- A tool invocation returned by the model.  The declared tool schema is
strict with the single required string parameter `sql_query`, so
`json.loads(tool_call.function.arguments)["sql_query"]` is modelled as the
already-extracted field `argSql`. -/
structure ToolCall where
  id : String
  argSql : String
deriving DecidableEq

/-- One chat-completions response message: its text content and its list of
tool invocations (an absent/`None` list is the empty list, matching the
truthiness test in the source). -/
structure Completion where
  content : Option String
  tool_calls : List ToolCall
deriving DecidableEq

/-- A message of the conversation sent to the provider. -/
inductive Msg where
  | user (content : String)
  | assistant (c : Completion)
  | tool (tool_call_id : String) (content : String)
deriving DecidableEq

/-- The language-model provider as an oracle: a deterministic response to
each message list (same messages, same response). -/
structure LLM where
  respond : List Msg → Completion

/-- Python `str()` of a bool. -/
def pyStrOfBool : Bool → String
  | true => "True"
  | false => "False"

/-- Function `check_data_existence(sql_query)` (utils.py lines 270-318): first
completion with the tool offer; if the response carries no tool invocation
the function falls through and returns `None`.  Otherwise the **first**
invocation is executed via `quick_check_sql` (default `db_path`), the
assistant message and the stringified boolean are appended, a second
completion is requested, and its text content returned verbatim.  An
exception from `quick_check_sql` propagates before the second call. -/
def check_data_existence (llm : LLM) (store : Store) (sql_query : String) :
    Except PyExc (Option String) × List Eff :=
  let messages : List Msg :=
    [Msg.user ("Check if data exists for query: " ++ sql_query)]
  let completion := llm.respond messages
  match completion.tool_calls with
  | [] => (Except.ok none, [Eff.llmCall])
  | tool_call :: _ =>
    match quick_check_sql store tool_call.argSql dataDb with
    | (Except.error e, effs) => (Except.error e, Eff.llmCall :: effs)
    | (Except.ok result, effs) =>
      let messages2 := messages ++
        [Msg.assistant completion, Msg.tool tool_call.id (pyStrOfBool result)]
      let completion_2 := llm.respond messages2
      (Except.ok completion_2.content, (Eff.llmCall :: effs) ++ [Eff.llmCall])

/-- Function `generate_sql_query(natural_language_query)` (utils.py lines 13-94):
the chat-completions call (fixed system prompt, temperature 0) is the
oracle `gen`, keyed by the natural-language query; the source strips the
returned content. -/
def generate_sql_query (gen : String → String)
    (natural_language_query : String) : String :=
  pyStrip (gen natural_language_query)

/-- Request body of the query endpoints (`QueryRequest` in main.py). -/
structure QueryRequest where
  session_id : String
  query : String
deriving DecidableEq

/-- Response body of `/query` (`QueryResponse` in main.py). -/
structure QueryResponse where
  sql : String
  results : List RowDict
deriving DecidableEq

/-- The `"\n\n".join(f"User: {e[user]}\nAI: {e[ai]}" for e in history)`
transcript of main.py line 83 (braces elided). -/
def historyText (history : List HistEntry) : String :=
  String.intercalate "\n\n"
    (history.map fun e => "User: " ++ e.user ++ "\nAI: " ++ e.ai)

/-- The prompt assembled by `process_query` (main.py lines 81-97):
a history-bearing variant when the session has entries, a fresh variant
otherwise (adjacent Python string literals concatenate without
separators). -/
def fullPrompt (history : List HistEntry) (query : String) : String :=
  match history with
  | [] =>
      "User query:\nUser: " ++ query ++
        "\nGenerate a valid **read-only** SQL query based on this query."
  | _ :: _ =>
      "You are FashionAI, assisting users with fashion database queries." ++
        "You remember prior queries and provide coherent responses." ++
        "Conversation history:\n" ++ historyText history ++ "\n\n" ++
        "Current user query:\nUser: " ++ query ++ "\n" ++
        "Generate a valid **read-only** SQL query based on the context provided."

/-- Python `str()` of one cell, as embedded in `str(results)`. -/
def cellRepr : Cell → String
  | Cell.int n => toString n
  | Cell.text s => s
  | Cell.null => "None"

/-- Python `str(results)` (main.py line 106).  Its exact rendering never
matters to any claim (it is only stored inside `ai_response`), so the repr
is modelled as an explicit serialization. -/
def pyStrResults (rs : List RowDict) : String :=
  "[" ++ String.intercalate ", "
    (rs.map fun r =>
      String.intercalate ", " (r.map fun p => p.1 ++ ": " ++ cellRepr p.2)) ++ "]"

/-- Handler `process_query` (main.py lines 66-110): read the history, build the
prompt, generate SQL, execute it; a `ValueError` (the policy rejection)
yields the generated SQL with empty results and no session write; any
other exception propagates; on success the turn is appended to the
session store. -/
def process_query (gen : String → String) (store : Store) (db : SessionDB)
    (request : QueryRequest) :
    Except PyExc QueryResponse × SessionDB × List Eff :=
  let history := get_session_history db request.session_id
  let full_prompt := fullPrompt history request.query
  let sql_query := generate_sql_query gen full_prompt
  match execute_sql_query store sql_query with
  | (Except.error (PyExc.valueError _), effs) =>
      (Except.ok ⟨sql_query, []⟩, db, effs)
  | (Except.error e, effs) => (Except.error e, db, effs)
  | (Except.ok results, effs) =>
      let ai_response :=
        if results == [] then "SQL Query: " ++ sql_query
        else pyStrResults results
      (Except.ok ⟨sql_query, results⟩,
       save_to_session db request.session_id request.query ai_response, effs)

/-- Response of `/check-and-execute`: either the
`QueryResponse.model_copy(update=...)` shape of the rejection branch
(keys `sql`, `results`, `status`) or the plain dict of the success branch
(keys `status`, `sql_query`, `results`). -/
inductive CheckExecResponse where
  | copied (status : Option String) (sql : String) (results : List RowDict)
  | plain (status : Option String) (sql_query : String) (results : List RowDict)
deriving DecidableEq

/-- Handler `check_and_execute` (main.py lines 127-161): generate SQL from the raw
user query, run the existence oracle, then execute; a `ValueError` from
execution yields the copied response with empty results; any other
exception propagates.  The session store is neither read nor written. -/
def check_and_execute (gen : String → String) (llm : LLM) (store : Store)
    (db : SessionDB) (request : QueryRequest) :
    Except PyExc CheckExecResponse × SessionDB × List Eff :=
  let sql_query := generate_sql_query gen request.query
  match check_data_existence llm store sql_query with
  | (Except.error e, effs) => (Except.error e, db, effs)
  | (Except.ok data_exists, effs) =>
    match execute_sql_query store sql_query with
    | (Except.error (PyExc.valueError _), effs2) =>
        (Except.ok (CheckExecResponse.copied data_exists sql_query []), db,
         effs ++ effs2)
    | (Except.error e, effs2) => (Except.error e, db, effs ++ effs2)
    | (Except.ok results, effs2) =>
        (Except.ok (CheckExecResponse.plain data_exists sql_query results), db,
         effs ++ effs2)

/-- Engine-raised exceptions (`sqlite3.OperationalError` / other
`sqlite3.Error`), as opposed to the policy `ValueError`. -/
def isEngineErr : PyExc → Bool
  | PyExc.operationalError _ => true
  | PyExc.databaseError _ => true
  | _ => false

/-- A store that raises `sqlite3.OperationalError` on every statement
(e.g. the referenced table does not exist). -/
def opErrStore : Store :=
  ⟨fun _ => Except.error (PyExc.operationalError "no such table: missing")⟩

/-- A store that raises `ValueError` on every statement. -/
def valErrStore : Store :=
  ⟨fun _ => Except.error (PyExc.valueError "bad value")⟩

/-- A store that answers every statement with the single cell `1`. -/
def okIntStore : Store := ⟨fun _ => Except.ok (["flag"], [[Cell.int 1]])⟩

/-- Claim C1: `execute_sql_query(s)` raises the policy
`ValueError "Only read-only queries are allowed."` iff the trimmed,
lower-cased `s` does not start with `select`, `with`, or `explain`
(given that the engine itself never raises a `ValueError`). -/
theorem execute_policy_error_iff (store : Store) (sql : String)
    (hstore : ∀ q m, store.run q ≠ Except.error (PyExc.valueError m)) :
    ((execute_sql_query store sql).1
        = Except.error (PyExc.valueError policyMsg))
      ↔ is_read_only sql = false := by
  cases hgate : is_read_only sql with
  | false => simp [execute_sql_query, hgate]
  | true =>
    simp only [execute_sql_query, hgate, Bool.not_true, Bool.false_eq_true,
      if_false, iff_false]
    cases hr : store.run sql with
    | ok v =>
      obtain ⟨cols, rows⟩ := v
      simp [hr]
    | error e =>
      have hne : e ≠ PyExc.valueError policyMsg := fun he =>
        hstore sql policyMsg (he ▸ hr)
      simp [hr, hne]

/-- Witness for C1 at the concrete inputs named by the claim:
`"drop table x"` and `""` are rejected with the policy error,
`"  SeLeCt 1"` is not. -/
theorem execute_policy_error_iff_witness :
    (execute_sql_query stubStore "drop table x").1
        = Except.error (PyExc.valueError policyMsg)
      ∧ (execute_sql_query stubStore "  SeLeCt 1").1
        ≠ Except.error (PyExc.valueError policyMsg)
      ∧ (execute_sql_query stubStore "").1
        = Except.error (PyExc.valueError policyMsg) := by
  have hst : ∀ q m, stubStore.run q ≠ Except.error (PyExc.valueError m) := by
    intro q m h
    simp [stubStore] at h
  refine ⟨?_, ?_, ?_⟩
  · exact (execute_policy_error_iff stubStore "drop table x" hst).mpr (by decide)
  · intro h
    exact absurd ((execute_policy_error_iff stubStore "  SeLeCt 1" hst).mp h)
      (by decide)
  · exact (execute_policy_error_iff stubStore "" hst).mpr (by decide)

/-- Claim C2: on SQL failing the read-only gate, `execute_sql_query` raises
the policy error with an empty effect trace: no connection is opened and no
statement is executed, whatever the store would do. -/
theorem execute_gate_fail_no_io (store : Store) (sql : String)
    (h : is_read_only sql = false) :
    execute_sql_query store sql
      = (Except.error (PyExc.valueError policyMsg), []) := by
  simp [execute_sql_query, h]

/-- Witness for C2 at `"drop table x"`. -/
theorem execute_gate_fail_no_io_witness :
    execute_sql_query stubStore "drop table x"
      = (Except.error (PyExc.valueError policyMsg), []) :=
  execute_gate_fail_no_io stubStore "drop table x" (by decide)

/-- Claim C9: once the gate passes, the trace is
connect-execute-close on every exit path (the connection is always
released), and an engine error raised by execution propagates unchanged —
in particular it is distinct from the policy `ValueError`. -/
theorem execute_closes_and_engine_errors_propagate (store : Store)
    (sql : String) (hgate : is_read_only sql = true) :
    (execute_sql_query store sql).2
        = [Eff.connect dataDb, Eff.executeStmt sql, Eff.close]
      ∧ ∀ e, store.run sql = Except.error e → isEngineErr e = true →
          (execute_sql_query store sql).1 = Except.error e
            ∧ e ≠ PyExc.valueError policyMsg := by
  constructor
  · cases hr : store.run sql with
    | ok v =>
      obtain ⟨cols, rows⟩ := v
      simp [execute_sql_query, hgate, hr]
    | error e => simp [execute_sql_query, hgate, hr]
  · intro e hr heng
    constructor
    · simp [execute_sql_query, hgate, hr]
    · intro he
      subst he
      simp [isEngineErr] at heng

/-- Witness for C9: on `"select 1"` against a store whose execution raises
`OperationalError`, the trace still ends with `close` and the engine error
is what propagates. -/
theorem execute_closes_and_engine_errors_propagate_witness :
    (execute_sql_query opErrStore "select 1").2
        = [Eff.connect dataDb, Eff.executeStmt "select 1", Eff.close]
      ∧ (execute_sql_query opErrStore "select 1").1
        = Except.error (PyExc.operationalError "no such table: missing") := by
  have h := execute_closes_and_engine_errors_propagate opErrStore "select 1"
    (by decide)
  exact ⟨h.1,
    (h.2 (PyExc.operationalError "no such table: missing") rfl (by decide)).1⟩

/-- Claim C4: when the `FROM` search finds nothing (after the `ORDER BY`
strip), `quick_check_sql` returns `False` with an empty effect trace: no
connection is opened and nothing is executed, whatever the store would
do. -/
theorem quick_check_no_from_no_io (store : Store) (sql_query db_path : String)
    (h : fromSearch (orderBySub sql_query).toList = none) :
    quick_check_sql store sql_query db_path = (Except.ok false, []) := by
  have h2 : existsQuery sql_query = none := by
    unfold existsQuery
    rw [h]
  simp [quick_check_sql, h2]

/-- Witness for C4 at `"SELECT 1"` (no `FROM` clause). -/
theorem quick_check_no_from_no_io_witness :
    quick_check_sql stubStore "SELECT 1" "data.db" = (Except.ok false, []) :=
  quick_check_no_from_no_io stubStore "SELECT 1" "data.db" (by decide)

/-- Claim C3 (code bug): the `try` in `quick_check_sql` catches only
`ValueError`, so an actual execution error — `sqlite3.OperationalError`,
here raised for `SELECT * FROM missing` — propagates instead of yielding
`False`; a `ValueError` is indeed downgraded to `False`. -/
theorem quick_check_propagates_operational_error :
    quick_check_sql opErrStore "SELECT * FROM missing" "data.db"
        = (Except.error (PyExc.operationalError "no such table: missing"),
           [Eff.connect "data.db",
            Eff.executeStmt "SELECT EXISTS (SELECT 1 FROM missing)"])
      ∧ quick_check_sql valErrStore "SELECT * FROM missing" "data.db"
        = (Except.ok false,
           [Eff.connect "data.db",
            Eff.executeStmt "SELECT EXISTS (SELECT 1 FROM missing)"]) := by
  constructor <;> decide

/-- Claim C5 counterexample: on
`"SELECT * FROM Products\nWHERE 0 = 1"` the capture group of
`\bFROM\b\s+(.*)` stops at the newline (`.` does not match `\n`), so the
probe executes `SELECT EXISTS (SELECT 1 FROM Products)` — dropping the
`WHERE` clause — and not the claimed
`SELECT EXISTS (SELECT 1 FROM Products\nWHERE 0 = 1)`. -/
theorem quick_check_tail_stops_at_newline_cex :
    quick_check_sql okIntStore "SELECT * FROM Products\nWHERE 0 = 1" "data.db"
        = (Except.ok true,
           [Eff.connect "data.db",
            Eff.executeStmt "SELECT EXISTS (SELECT 1 FROM Products)"])
      ∧ ("SELECT EXISTS (SELECT 1 FROM Products)" : String)
        ≠ "SELECT EXISTS (SELECT 1 FROM Products\nWHERE 0 = 1)" := by
  constructor <;> decide

lemma fromTailAt_no_newline (l t : List Char) (h : fromTailAt l = some t) :
    '\n' ∉ t := by
  unfold fromTailAt at h
  cases hd : dropPrefixCI ("from".toList) l with
  | none => rw [hd] at h; cases h
  | some rest =>
    rw [hd] at h
    cases rest with
    | nil => cases h
    | cons c cs =>
      by_cases hs : isPySpace c
      · simp only [hs, if_true, Option.some.injEq] at h
        subst h
        intro hmem
        have hp := List.mem_takeWhile_imp hmem
        simp at hp
      · simp [hs] at h

lemma fromSearchGo_no_newline (l : List Char) (b : Bool) (t : List Char)
    (h : fromSearchGo b l = some t) : '\n' ∉ t := by
  induction l generalizing b with
  | nil => cases h
  | cons c cs ih =>
    unfold fromSearchGo at h
    by_cases hb : b
    · subst hb
      simp only [Bool.not_true, if_false] at h
      exact ih _ h
    · simp only [Bool.not_eq_true] at hb
      subst hb
      simp only [Bool.not_false, if_true] at h
      cases hft : fromTailAt (c :: cs) with
      | some t0 =>
        rw [hft] at h
        cases h
        exact fromTailAt_no_newline _ _ hft
      | none =>
        rw [hft] at h
        exact ih _ h

/-- Claim C5 amended: when the search `\bFROM\b\s+(.*)` on the
`ORDER BY`-stripped query succeeds with captured group `t` — everything
after the whitespace following the first word-delimited `FROM`, up to the
next newline or the end — the probe executes exactly
`SELECT EXISTS (SELECT 1 FROM t)`; the captured `t` never contains a
newline, so anything on later lines of the query is dropped, and a `FROM`
not followed by whitespace does not match at that position. -/
theorem quick_check_probe_query_amended (store : Store) (s db_path : String)
    (t : List Char)
    (h : fromSearch (orderBySub s).toList = some t) :
    (quick_check_sql store s db_path).2
        = [Eff.connect db_path,
           Eff.executeStmt ("SELECT EXISTS (SELECT 1 FROM " ++ String.mk t ++ ")")]
      ∧ '\n' ∉ t := by
  have hq : existsQuery s
      = some ("SELECT EXISTS (SELECT 1 FROM " ++ String.mk t ++ ")") := by
    unfold existsQuery
    rw [h]
  constructor
  · unfold quick_check_sql
    rw [hq]
    cases hr : store.run ("SELECT EXISTS (SELECT 1 FROM " ++ String.mk t ++ ")") with
    | ok v =>
      obtain ⟨cols, rows⟩ := v
      cases rows with
      | nil => simp [hr]
      | cons row rest => cases row <;> simp [hr]
    | error e => cases e <;> simp [hr]
  · exact fromSearchGo_no_newline _ false t h

/-- Witness for the amended C5 at the specification example
`"SELECT * FROM Products ORDER BY Name"`: the `ORDER BY` clause is
stripped and the probe statement is `SELECT EXISTS (SELECT 1 FROM
Products )` (the capture retains the trailing space left by the strip). -/
theorem quick_check_probe_query_amended_witness :
    (quick_check_sql stubStore "SELECT * FROM Products ORDER BY Name"
        "data.db").2
      = [Eff.connect "data.db",
         Eff.executeStmt "SELECT EXISTS (SELECT 1 FROM Products )"] := by
  have h := (quick_check_probe_query_amended stubStore
    "SELECT * FROM Products ORDER BY Name" "data.db"
    ("Products ".toList) (by decide)).1
  have h2 : ("SELECT EXISTS (SELECT 1 FROM "
      ++ String.mk ("Products ".toList) ++ ")" : String)
      = "SELECT EXISTS (SELECT 1 FROM Products )" := by decide
  rw [h2] at h
  exact h

lemma get_session_history_append (db : SessionDB)
    (sid session_id user ai : String) :
    get_session_history (save_to_session db session_id user ai) sid
      = get_session_history db sid
          ++ (if session_id == sid then [⟨user, ai⟩] else []) := by
  unfold get_session_history save_to_session
  rw [List.filter_append, List.map_append]
  by_cases h : session_id == sid <;> simp [List.filter, h]

lemma get_session_history_foldl (db : SessionDB) (sid : String)
    (turns : List (String × String)) :
    get_session_history
        (turns.foldl (fun d t => save_to_session d sid t.1 t.2) db) sid
      = get_session_history db sid
          ++ turns.map (fun t => (⟨t.1, t.2⟩ : HistEntry)) := by
  induction turns generalizing db with
  | nil => simp
  | cons t ts ih =>
    simp only [List.foldl_cons, List.map_cons]
    rw [ih, get_session_history_append]
    simp

/-- Claim C8: starting from a store holding no rows for `session_id`,
appending N turns and reading the history returns exactly those N
`{user, ai}` pairs in append order; moreover every append only adds one
entry at the end of the history of its session — previously appended turns
are never mutated or dropped. -/
theorem session_roundtrip (db : SessionDB) (sid : String)
    (turns : List (String × String))
    (hclean : ∀ r ∈ db, r.session_id ≠ sid) :
    get_session_history
        (turns.foldl (fun d t => save_to_session d sid t.1 t.2) db) sid
      = turns.map (fun t => (⟨t.1, t.2⟩ : HistEntry))
    ∧ ∀ (db2 : SessionDB) (u a : String),
        get_session_history (save_to_session db2 sid u a) sid
          = get_session_history db2 sid ++ [⟨u, a⟩] := by
  constructor
  · have hnil : get_session_history db sid = [] := by
      unfold get_session_history
      have hfil : db.filter (fun r => r.session_id == sid) = [] := by
        rw [List.filter_eq_nil_iff]
        intro r hr
        simpa using hclean r hr
      rw [hfil]
      rfl
    rw [get_session_history_foldl, hnil, List.nil_append]
  · intro db2 u a
    rw [get_session_history_append]
    simp

/-- Witness for C8: one turn appended for session `"s1"` to a store
already holding a row of another session reads back as exactly that
`{user, ai}` pair at position 0. -/
theorem session_roundtrip_witness :
    get_session_history
        (save_to_session [⟨"other", "x", "y"⟩] "s1" "hi" "SELECT 1") "s1"
      = [⟨"hi", "SELECT 1"⟩] := by
  have h := (session_roundtrip [⟨"other", "x", "y"⟩] "s1"
    [("hi", "SELECT 1")] (by decide)).1
  simpa using h

/-- Claim C6: in `check_data_existence`, a first-round response without
tool invocations makes the function return `None` after a single provider
call and no probe; with tool invocations, only the first is executed (with
the default `"data.db"`), and the value returned is the second-round
response content, verbatim. -/
theorem oracle_decide_and_resolve (llm : LLM) (store : Store) (sql : String) :
    ((llm.respond [Msg.user ("Check if data exists for query: " ++ sql)]).tool_calls
        = [] →
      check_data_existence llm store sql = (Except.ok none, [Eff.llmCall]))
    ∧ ∀ (tc : ToolCall) (rest : List ToolCall) (b : Bool) (effs : List Eff),
        (llm.respond [Msg.user ("Check if data exists for query: " ++ sql)]).tool_calls
          = tc :: rest →
        quick_check_sql store tc.argSql dataDb = (Except.ok b, effs) →
        check_data_existence llm store sql
          = (Except.ok (llm.respond
                ([Msg.user ("Check if data exists for query: " ++ sql)] ++
                 [Msg.assistant (llm.respond
                    [Msg.user ("Check if data exists for query: " ++ sql)]),
                  Msg.tool tc.id (pyStrOfBool b)])).content,
             (Eff.llmCall :: effs) ++ [Eff.llmCall]) := by
  constructor
  · intro h
    simp only [check_data_existence, h]
  · intro tc rest b effs h hq
    simp only [check_data_existence, h, hq]

/-- A provider that never invokes the tool. -/
def llmNoTool : LLM := ⟨fun _ => ⟨some "no determination", []⟩⟩

/-- A provider whose first-round response carries two tool invocations and
whose second-round response is plain text. -/
def llmTwoTools : LLM :=
  ⟨fun messages =>
    match messages with
    | [Msg.user _] =>
        ⟨none, [⟨"call1", "SELECT * FROM Products"⟩,
                ⟨"call2", "SELECT * FROM Stores"⟩]⟩
    | _ => ⟨some "data exists", []⟩⟩

/-- Witness for C6: with no tool invocation the oracle returns `None`
after one provider call; with two invocations only the first
(`SELECT * FROM Products`) is probed and the second-round text is
returned. -/
theorem oracle_decide_and_resolve_witness :
    check_data_existence llmNoTool stubStore "SELECT 1"
        = (Except.ok none, [Eff.llmCall])
      ∧ check_data_existence llmTwoTools okIntStore "SELECT 9"
        = (Except.ok (some "data exists"),
           Eff.llmCall :: [Eff.connect "data.db",
              Eff.executeStmt "SELECT EXISTS (SELECT 1 FROM Products)",
              Eff.llmCall]) := by
  constructor
  · exact (oracle_decide_and_resolve llmNoTool stubStore "SELECT 1").1 rfl
  · have h := (oracle_decide_and_resolve llmTwoTools okIntStore "SELECT 9").2
      ⟨"call1", "SELECT * FROM Products"⟩ [⟨"call2", "SELECT * FROM Stores"⟩]
      true
      [Eff.connect "data.db",
       Eff.executeStmt "SELECT EXISTS (SELECT 1 FROM Products)"]
      rfl (by decide)
    exact h.trans (by decide)

/-- A generator stubbed to return a write statement. -/
def delGen : String → String := fun _ => "DELETE FROM Products"

/-- A generator stubbed to return a harmless read statement. -/
def selGen : String → String := fun _ => "SELECT 1"

/-- Claim C7: when the generated SQL fails the read-only gate,
`process_query` returns that SQL with an empty result list, raises no
error, executes nothing against the store, and leaves the session store
unchanged. -/
theorem process_query_rejection (gen : String → String) (store : Store)
    (db : SessionDB) (request : QueryRequest)
    (h : is_read_only (generate_sql_query gen
          (fullPrompt (get_session_history db request.session_id)
            request.query)) = false) :
    process_query gen store db request
      = (Except.ok ⟨generate_sql_query gen
            (fullPrompt (get_session_history db request.session_id)
              request.query), []⟩,
         db, []) := by
  simp [process_query, execute_sql_query, h]

/-- Witness for C7: the model is stubbed to return
`"DELETE FROM Products"`; the response carries that SQL with no rows and
the trace is empty. -/
theorem process_query_rejection_witness :
    process_query delGen stubStore [] ⟨"s1", "delete everything"⟩
      = (Except.ok ⟨"DELETE FROM Products", []⟩, [], []) := by
  have h := process_query_rejection delGen stubStore []
    ⟨"s1", "delete everything"⟩ (by decide)
  exact h.trans (by decide)

/-- Claim C10: `check_and_execute` never reads or writes the session
store, and its outcome depends only on the query text: requests differing
only in `session_id` get identical results. -/
theorem check_and_execute_session_independent (gen : String → String)
    (llm : LLM) (store : Store) (db : SessionDB) (r1 r2 : QueryRequest)
    (h : r1.query = r2.query) :
    check_and_execute gen llm store db r1
        = check_and_execute gen llm store db r2
      ∧ (check_and_execute gen llm store db r1).2.1 = db := by
  constructor
  · simp only [check_and_execute, h]
  · simp only [check_and_execute]
    rcases hcde : check_data_existence llm store (generate_sql_query gen r1.query)
      with ⟨res, effs⟩
    cases res with
    | error e => simp
    | ok v =>
      rcases hexe : execute_sql_query store (generate_sql_query gen r1.query)
        with ⟨res2, effs2⟩
      cases res2 with
      | ok results => simp
      | error e => cases e <;> simp

/-- Witness for C10: same query under two different session identifiers
yields the same response, and the session store is returned untouched. -/
theorem check_and_execute_session_independent_witness :
    check_and_execute selGen llmNoTool stubStore [] ⟨"a", "list products"⟩
        = check_and_execute selGen llmNoTool stubStore [] ⟨"b", "list products"⟩
      ∧ (check_and_execute selGen llmNoTool stubStore []
          ⟨"a", "list products"⟩).2.1 = [] :=
  check_and_execute_session_independent selGen llmNoTool stubStore []
    ⟨"a", "list products"⟩ ⟨"b", "list products"⟩ rfl
